import Mathlib

/-!
Verification of the mcp-proxy bridge (insightflo/mcp-proxy).

The repository is a set of Express-based proxy iterations that bridge
client-facing SSE sessions onto a single upstream (n8n) SSE connection.
This file gives a shallow embedding of the bridge logic that the claims
are about, translated from the JavaScript source:

* the SSE frame handling of the background listeners: splitting chunks on
  newline characters, carrying the final incomplete fragment over to the
  next chunk (robust listener of the part_002 variant) or not carrying it
  (simple listener of the first index.js variant);
* the reply routing state: the pendingRequests and responseWaiters maps,
  JS Map get/set/delete semantics as association lists;
* the connection guards ensureN8nGlobalConnection in both the
  promise-singleton form and the flag-and-sleep form;
* N8nSession.processLine, N8nSession.sendToN8n, N8nSession.close,
  QuickMcpClient.sendInternal;
* the POST handlers (handleMcpPost, variant-1 POST /sse,
  POST /session/:sessionId) and the GET /sse connection handler.

Platform functions are environment parameters: JSON.parse is a parameter
parse returning none where JSON.parse would throw, and URL resolution
against the upstream base is a parameter of processLine.  Cooperative
concurrency is embedded by making each await point an explicit
observation of the shared state (for example, the value of
n8nGlobalSession seen when a 500 ms sleep expires is an argument).
Strings are lists of characters; JS string trim, startsWith and split
are modelled directly.
-/

namespace McpProxy

/-- A parsed upstream JSON-RPC message as the listeners use it: only the
id field is inspected by the routing code; raw keeps the payload content
so distinct messages stay distinct. The id is none when the JSON object
has no id field. -/
structure Msg where
  id : Option Nat
  raw : List Char
deriving DecidableEq

/-- JS truthiness of msg.id for a numeric id: undefined and 0 are falsy. -/
def jsTruthyId : Option Nat → Bool
  | none => false
  | some n => !(n == 0)

/-- JS truthiness of a string-valued field: undefined and the empty string
are falsy. -/
def jsTruthyStr : Option (List Char) → Bool
  | none => false
  | some s => !s.isEmpty

/-- Whitespace characters removed by JS String.prototype.trim (the ones
relevant to this wire format). -/
def isWsChar (c : Char) : Bool :=
  c == ' ' || c == '\t' || c == '\n' || c == '\r'

/-- JS String.prototype.trim on a character list. -/
def jsTrim (s : List Char) : List Char :=
  ((s.dropWhile isWsChar).reverse.dropWhile isWsChar).reverse

/-- The SSE data marker, the string the listeners test with
startsWith("data: "). -/
def dataTag : List Char := "data: ".toList

/-- The SSE terminator payload "[DONE]" that the listeners skip. -/
def doneTag : List Char := "[DONE]".toList

/-- The SSE event marker "event: endpoint" announcing the posting URL. -/
def endpointTag : List Char := "event: endpoint".toList

/-- The "notifications/" method marker tested by the POST handlers. -/
def notifTag : List Char := "notifications/".toList

/-- The "Bearer " marker tested on the Authorization header. -/
def bearerTag : List Char := "Bearer ".toList

/-- JS Map.prototype.get as lookup in an association list (the maps keep
keys unique, see the Nodup lemmas below). -/
def mapGet {κ α : Type} [DecidableEq κ] : List (κ × α) → κ → Option α
  | [], _ => none
  | (k, v) :: rest, key => if k = key then some v else mapGet rest key

/-- JS Map.prototype.set: replace the value of an existing key in place,
otherwise append the new entry. -/
def mapSet {κ α : Type} [DecidableEq κ] : List (κ × α) → κ → α → List (κ × α)
  | [], k, v => [(k, v)]
  | (k', v') :: rest, k, v =>
    if k' = k then (k, v) :: rest else (k', v') :: mapSet rest k v

/-- JS Map.prototype.delete: remove the entry of the key, if present. -/
def mapDelete {κ α : Type} [DecidableEq κ] : List (κ × α) → κ → List (κ × α)
  | [], _ => []
  | (k', v) :: rest, k => if k' = k then rest else (k', v) :: mapDelete rest k

/-- JS Map.prototype.has. -/
def mapHas {κ α : Type} [DecidableEq κ] (m : List (κ × α)) (k : κ) : Bool :=
  (mapGet m k).isSome

/-- The keys of an association-list map. -/
def mapKeys {κ α : Type} (m : List (κ × α)) : List κ :=
  m.map Prod.fst

/-- JS buffer.split("\x5cn") followed by buffer = lines.pop(): the first
component is the complete lines, the second the final (possibly
incomplete) fragment held back as the new carry-over buffer. -/
def linesAndRest : List Char → List (List Char) × List Char
  | [] => ([], [])
  | c :: cs =>
    if c = '\n' then
      ([] :: (linesAndRest cs).1, (linesAndRest cs).2)
    else
      match linesAndRest cs with
      | ([], r) => ([], c :: r)
      | (l :: ls, r) => ((c :: l) :: ls, r)

/-- JS chunk.split("\x5cn") without popping: every segment, including the
final fragment, as processed by the simple background listener. -/
def allSegments (s : List Char) : List (List Char) :=
  (linesAndRest s).1 ++ [(linesAndRest s).2]

/-- One chunk step of a carry-over line parser: append the chunk to the
buffer, split on newline, hold back the final fragment as the new buffer,
and fold the line handler g over the complete lines. -/
def chunkFeed {σ : Type} (g : σ → List Char → σ) (st : σ × List Char)
    (chunk : List Char) : σ × List Char :=
  let p := linesAndRest (st.2 ++ chunk)
  (p.1.foldl g st.1, p.2)

/-- A session entry of the variant-1 sessions map:
sessions.set(sessionId, type sse, res). isSse models type === sse and
hasRes models the truthiness of the stored res handle. -/
structure SessEntry where
  isSse : Bool
  hasRes : Bool
deriving DecidableEq

/-- Observable routing actions of the variant-1 background listener. -/
inductive RouteEvent where
  | sseDelivered (sid : List Char) (m : Msg)
deriving DecidableEq

/-- The module-level shared state of the first index.js variant:
pendingRequests (request id to session id), sessions, the n8n connection
globals, and a log of deliveries performed so far. The id keys are
Option Nat because the handlers store req.body.id verbatim, which may be
absent. -/
structure RouteState where
  pending : List (Option Nat × List Char)
  sessions : List (List Char × SessEntry)
  n8nSession : Option (List Char)
  n8nAttempt : Option Nat
  log : List RouteEvent
deriving DecidableEq

/-- One line of the simple background listener of the first index.js
variant (index.js lines 114-131): on a data line, strip the marker, skip
empty and [DONE] payloads, JSON.parse inside try/catch, look the id up in
pendingRequests, deliver over the SSE stream of the owning session when
it is an sse session with a live res, and delete the pending entry. -/
def simpleLineStep (parse : List Char → Option Msg) (st : RouteState)
    (line : List Char) : RouteState :=
  let trimmed := jsTrim line
  if dataTag.isPrefixOf trimmed then
    let jsonStr := jsTrim (trimmed.drop 6)
    if jsonStr.isEmpty || jsonStr == doneTag then st
    else
      match parse jsonStr with
      | none => st
      | some msg =>
        match mapGet st.pending msg.id with
        | none => st
        | some sid =>
          if sid.isEmpty then st
          else
            let st1 :=
              match mapGet st.sessions sid with
              | some e =>
                if e.isSse && e.hasRes then
                  { st with log := st.log ++ [RouteEvent.sseDelivered sid msg] }
                else st
              | none => st
            { st1 with pending := mapDelete st1.pending msg.id }
  else st

/-- One chunk of the simple background listener: chunk.split("\x5cn") and
process every segment, with no carry-over buffer between chunks. -/
def simpleChunkStep (parse : List Char → Option Msg) (st : RouteState)
    (chunk : List Char) : RouteState :=
  (allSegments chunk).foldl (simpleLineStep parse) st

/-- The simple background listener over a sequence of received chunks. -/
def runSimple (parse : List Char → Option Msg) (st : RouteState)
    (chunks : List (List Char)) : RouteState :=
  chunks.foldl (simpleChunkStep parse) st

/-- Observable actions of the sync-bridge listeners (part_002 robust
variant and part_004): resolving a waiting HTTP responder, or a timeout
rejection by the 25 or 30 second timer of the POST handler. -/
inductive BridgeEvent where
  | resolvedWith (id : Option Nat) (m : Msg)
  | rejectedTimeout (id : Option Nat)
deriving DecidableEq

/-- The inner state of the robust background listener of part_002 (lines
393-450): the multi-line accumulation variable currentEventData, the
shared responseWaiters map (id to an opaque waiter token), and the log of
resolutions performed. -/
structure RobustInner where
  eventData : List Char
  waiters : List (Option Nat × Nat)
  log : List BridgeEvent
deriving DecidableEq

/-- One complete line of the robust listener of part_002: a data line
accumulates line.substring(6) into currentEventData; a blank line
terminates the block, skipping empty and [DONE] blocks, parsing the
accumulated data, resolving a matching responseWaiters entry if the id
is truthy and pending, and resetting the accumulator; any other line is
ignored. -/
def robustLineStep (parse : List Char → Option Msg) (st : RobustInner)
    (line : List Char) : RobustInner :=
  let trimmed := jsTrim line
  if dataTag.isPrefixOf trimmed then
    { st with eventData := st.eventData ++ line.drop 6 }
  else if trimmed.isEmpty then
    if st.eventData.isEmpty then st
    else
      let st2 :=
        if st.eventData == doneTag then st
        else
          match parse st.eventData with
          | some msg =>
            if jsTruthyId msg.id && mapHas st.waiters msg.id then
              { st with waiters := mapDelete st.waiters msg.id,
                        log := st.log ++ [BridgeEvent.resolvedWith msg.id msg] }
            else st
          | none => st
      { st2 with eventData := [] }
  else st

/-- The robust background listener over a sequence of received chunks:
buffer += chunk; lines = buffer.split("\x5cn"); buffer = lines.pop();
process all complete lines. The carried buffer is the second component. -/
def runRobust (parse : List Char → Option Msg)
    (st : RobustInner × List Char) (chunks : List (List Char)) :
    RobustInner × List Char :=
  chunks.foldl (chunkFeed (robustLineStep parse)) st

/-- The shared state of the sync-bridge variants (part_004, part_002):
n8nGlobalSession (its sessionUrl), whether n8nConnectionPromise is set,
the responseWaiters map and the log of observable outcomes. -/
structure SyncBridgeState where
  session : Option (List Char)
  connectionInFlight : Bool
  waiters : List (Option Nat × Nat)
  log : List BridgeEvent
deriving DecidableEq

/-- The finally block of the background listener (index.js lines 136-139,
part_004 lines 131-134), run when the upstream stream ends or errors:
n8nGlobalSession = null and n8nConnectionPromise = null, nothing else. -/
def onStreamEnd (st : SyncBridgeState) : SyncBridgeState :=
  { st with session := none, connectionInFlight := false }

/-- The setTimeout callback registered by the sync-bridge POST handler
(part_004 lines 231-236): if the id is still in responseWaiters, delete
it and reject the promise with a timeout error; otherwise do nothing. -/
def onWaiterTimeout (st : SyncBridgeState) (id : Option Nat) : SyncBridgeState :=
  if mapHas st.waiters id then
    { st with waiters := mapDelete st.waiters id,
              log := st.log ++ [BridgeEvent.rejectedTimeout id] }
  else st

/-- One data line of the part_004 background listener (lines 109-127):
parse the payload and, only when the id is truthy and has a registered
waiter, resolve and delete it; a non-matching message is dropped with no
effect. -/
def bridgeLineStep (parse : List Char → Option Msg) (st : SyncBridgeState)
    (line : List Char) : SyncBridgeState :=
  let trimmed := jsTrim line
  if dataTag.isPrefixOf trimmed then
    let jsonStr := jsTrim (trimmed.drop 6)
    if jsonStr.isEmpty || jsonStr == doneTag then st
    else
      match parse jsonStr with
      | none => st
      | some msg =>
        if jsTruthyId msg.id && mapHas st.waiters msg.id then
          { st with waiters := mapDelete st.waiters msg.id,
                    log := st.log ++ [BridgeEvent.resolvedWith msg.id msg] }
        else st
  else st

/-- State read by the promise-singleton ensureN8nGlobalConnection
(index.js lines 41-57): n8nGlobalSession (its sessionUrl) and the
in-flight n8nConnectionPromise, identified by an attempt id. -/
structure PGState where
  session : Option (List Char)
  attempt : Option Nat
deriving DecidableEq

/-- What a caller of the connection-ensuring operation observes. -/
inductive EnsureOutcome where
  | existing (s : List Char)
  | joined (a : Nat)
  | started (a : Nat)
deriving DecidableEq

/-- The promise-singleton ensureN8nGlobalConnection: return the cached
session if present; else if a connection promise is in flight, await that
same attempt; else start a fresh attempt and store its promise. fresh is
the identity of the attempt a new call would create. -/
def ensurePromise (st : PGState) (fresh : Nat) : EnsureOutcome × PGState :=
  match st.session with
  | some s => (.existing s, st)
  | none =>
    match st.attempt with
    | some a => (.joined a, st)
    | none => (.started fresh, { st with attempt := some fresh })

/-- State read by the flag-and-sleep ensureN8nGlobalConnection (index.js
lines 338-345): n8nGlobalSession and the n8nConnecting flag. -/
structure FGState where
  session : Option (List Char)
  connecting : Bool
deriving DecidableEq

/-- What a caller of the flag-and-sleep variant observes: the cached
session, or the value of n8nGlobalSession seen after the 500 ms sleep
(which may still be null), or the start of a fresh attempt. -/
inductive FlagOutcome where
  | existing (s : List Char)
  | sleptThenReturned (s : Option (List Char))
  | started
deriving DecidableEq

/-- The flag-and-sleep ensureN8nGlobalConnection: if n8nGlobalSession is
set, return it; else if n8nConnecting, sleep 500 ms and return whatever
n8nGlobalSession holds at wake time (sessionAtWake, the state observed at
that await point); else set the flag and start connecting. -/
def ensureFlag (st : FGState) (sessionAtWake : Option (List Char)) : FlagOutcome :=
  match st.session with
  | some s => .existing s
  | none => if st.connecting then .sleptThenReturned sessionAtWake else .started

/-- Outcome of a send operation towards the upstream posting endpoint. -/
inductive SendOutcome where
  | sent (u : List Char)
  | notReadyErr
  | skipped
deriving DecidableEq

/-- The polling loop of N8nSession.sendToN8n: starting at observation k
with the given fuel (50 - attempts), return the first endpoint value seen,
or none when all remaining observations are null. urlAt j is the value of
this.n8nSessionUrl observed after j sleeps of 100 ms. -/
def firstUrl (urlAt : Nat → Option (List Char)) : Nat → Nat → Option (List Char)
  | _, 0 => none
  | k, f + 1 =>
    match urlAt k with
    | some u => some u
    | none => firstUrl urlAt (k + 1) f

/-- N8nSession.sendToN8n (index.js lines 1205-1221): if the endpoint is
already known, post to it; otherwise poll every 100 ms for at most 50
attempts and post to the first endpoint observed; if it is still unknown
after 50 attempts, throw the not-ready error. The message is never posted
to an unresolved endpoint. -/
def sendToN8n (urlAt : Nat → Option (List Char)) : SendOutcome :=
  match urlAt 0 with
  | some u => .sent u
  | none =>
    match firstUrl urlAt 1 50 with
    | some u => .sent u
    | none => .notReadyErr

/-- QuickMcpClient.sendInternal (index.js lines 856-863): if
this.sessionUrl is not set, return silently without sending; otherwise
post to it. -/
def sendInternal (url : Option (List Char)) : SendOutcome :=
  match url with
  | none => .skipped
  | some u => .sent u

/-- Observable actions of an N8nSession. -/
inductive NSEvent where
  | resolveWaiter (m : Msg)
  | sseMessage (m : Msg)
  | initPosted (u : List Char)
  | timeoutReject (id : Option Nat)
deriving DecidableEq

/-- The per-session state of an N8nSession (index.js lines 1103-1241):
the discovered posting URL, the expectingEndpointData flag, the
responseWaiters map, whether a client res stream is attached, and the
isAlive flag. -/
structure NSState where
  n8nSessionUrl : Option (List Char)
  expectingEndpointData : Bool
  waiters : List (Option Nat × Nat)
  hasClientRes : Bool
  isAlive : Bool
deriving DecidableEq

/-- N8nSession.processLine (index.js lines 1165-1196) on an already
trimmed line: an endpoint event marker arms expectingEndpointData; the
following data line resolves the posting URL against the upstream base
(the platform URL constructor is the parameter ru) and posts the
initialize handshake; any other data line is parsed and either resolves
a matching waiter, or, if a client res stream is attached, is pushed to
it as an SSE message event, or else is dropped. -/
def processLine (parse : List Char → Option Msg) (ru : List Char → List Char)
    (st : NSState) (line : List Char) : NSState × List NSEvent :=
  if line.isEmpty then (st, [])
  else if endpointTag.isPrefixOf line then
    ({ st with expectingEndpointData := true }, [])
  else if st.expectingEndpointData && dataTag.isPrefixOf line then
    let u := ru (jsTrim (line.drop 6))
    ({ st with n8nSessionUrl := some u, expectingEndpointData := false },
     [NSEvent.initPosted u])
  else if dataTag.isPrefixOf line then
    let jsonStr := jsTrim (line.drop 6)
    if jsonStr.isEmpty || jsonStr == doneTag then (st, [])
    else
      match parse jsonStr with
      | some msg =>
        if jsTruthyId msg.id && mapHas st.waiters msg.id then
          ({ st with waiters := mapDelete st.waiters msg.id },
           [NSEvent.resolveWaiter msg])
        else if st.hasClientRes then (st, [NSEvent.sseMessage msg])
        else (st, [])
      | none => (st, [])
  else (st, [])

/-- N8nSession.close (index.js lines 1236-1240): set isAlive to false,
abort the upstream fetch of this session, and clear responseWaiters. The
cleared waiters are not resolved: the returned event list is empty. -/
def closeNs (st : NSState) : NSState × List NSEvent :=
  ({ st with isAlive := false, waiters := [] }, [])

/-- The setTimeout callback of N8nSession.sendToN8nAndWait (index.js
lines 1227-1232): if the id is still registered, delete it and reject
with the timeout error; otherwise do nothing (the promise never
settles). -/
def nsOnTimeout (st : NSState) (id : Option Nat) : NSState × List NSEvent :=
  if mapHas st.waiters id then
    ({ st with waiters := mapDelete st.waiters id }, [NSEvent.timeoutReject id])
  else (st, [])

/-- The req.on close handler of the variant-1 GET /sse route (index.js
lines 269-273): clear the keep-alive timer and delete the session entry;
pendingRequests and the n8n connection globals are not touched. -/
def onClientClose (g : RouteState) (sid : List Char) : RouteState :=
  { g with sessions := mapDelete g.sessions sid }

/-- A posted JSON-RPC envelope as the POST handlers inspect it. -/
structure McpRequest where
  method : Option (List Char)
  id : Option Nat
deriving DecidableEq

/-- The handling plan a POST handler commits to: the immediate static
initialize reply (carrying the reply id and the static protocol version,
server name, server version and the tools capability flag), the
notification acknowledgement, relay through the newest live session, a
transient one-shot session call, the variant-1 empty-result relay reply,
an error reply, or a plain 200 OK. -/
inductive ReplyPlan where
  | initReply (id : Option Nat)
      (protocolVersion serverName serverVersion : List Char) (capsTools : Bool)
  | notificationAck
  | relayExisting
  | transientCall
  | relayEmptyResult (id : Option Nat)
  | errorReply (id : Option Nat)
  | plainOk
deriving DecidableEq

/-- The immediate initialize reply built by the handlers: protocol
version 2024-11-05, server Stock Analysis MCP 1.0.0, capabilities with
tools, and the id of the posted request. -/
def initializeReply (id : Option Nat) : ReplyPlan :=
  .initReply id "2024-11-05".toList "Stock Analysis MCP".toList "1.0.0".toList true

/-- True when the method field starts with "notifications/". -/
def isNotifMethod : Option (List Char) → Bool
  | none => false
  | some m => notifTag.isPrefixOf m

/-- handleMcpPost (index.js lines 1246-1316): initialize is answered
immediately with the static reply; a notifications/ method or an id-less
body is acknowledged with 200 and relayed in the background; otherwise
the call is relayed through the newest live session when one exists, or
through a transient one-shot session; a body with no method gets a plain
200 OK. hasSession tells whether sessions is nonempty at the branch. -/
def handleMcpPost (hasSession : Bool) (req : McpRequest) : ReplyPlan :=
  if req.method == some "initialize".toList then initializeReply req.id
  else if jsTruthyStr req.method && (isNotifMethod req.method || !jsTruthyId req.id) then
    .notificationAck
  else if jsTruthyStr req.method then
    if hasSession then .relayExisting else .transientCall
  else .plainOk

/-- The variant-1 POST /sse handler (index.js lines 187-240): initialize
is answered immediately with the static reply; any other method is
relayed to n8n and acknowledged with an empty result, or turned into the
-32603 error reply when the connection is unavailable; a body with no
method gets a plain 200 OK. ensureOk tells whether
ensureN8nGlobalConnection produced a usable session. -/
def handlePostSseV1 (ensureOk : Bool) (req : McpRequest) : ReplyPlan :=
  if req.method == some "initialize".toList then initializeReply req.id
  else if jsTruthyStr req.method then
    if ensureOk then .relayEmptyResult req.id else .errorReply req.id
  else .plainOk

/-- Whether executing the plan involves any call towards the upstream
(an ensureN8nGlobalConnection attempt or a post to the n8n session
URL). -/
def planCallsUpstream : ReplyPlan → Bool
  | .initReply _ _ _ _ _ => false
  | .plainOk => false
  | _ => true

/-- Whether executing the plan registers a reply waiter. -/
def planRegistersWaiter : ReplyPlan → Bool
  | .transientCall => true
  | _ => false

/-- The variant-1 POST /session/:sessionId handler (index.js lines
277-305): 404 when the session is unknown; otherwise await
ensureN8nGlobalConnection (ensureRes is none when it threw, some of the
possibly-null session otherwise), then pendingRequests.set(id, sessionId)
unconditionally, then fail 500 on a null session or failed relay fetch
(fetchOk), else answer 202. -/
def handleSessionPost (g : RouteState) (sid : List Char) (reqId : Option Nat)
    (ensureRes : Option (Option (List Char))) (fetchOk : Bool) :
    Nat × RouteState :=
  match mapGet g.sessions sid with
  | none => (404, g)
  | some _ =>
    match ensureRes with
    | none => (500, g)
    | some urlOpt =>
      let g2 := { g with pending := mapSet g.pending reqId sid }
      match urlOpt with
      | none => (500, g2)
      | some _ => if fetchOk then (202, g2) else (500, g2)

/-- An inbound HTTP request as the GET /sse handler inspects it. -/
structure HttpReq where
  authorization : Option (List Char)
deriving DecidableEq

/-- Outcome of the GET /sse handler: a 401 rejection carrying the error
body, or an opened stream with the issued session id. -/
inductive SseConnOutcome where
  | unauthorized401 (err : List Char)
  | streamOpened (sid : List Char)
deriving DecidableEq

/-- What the GET /sse handler writes to the client stream. -/
inductive ClientEvent where
  | comment (s : List Char)
  | sseEvent (name payload : List Char)
deriving DecidableEq

/-- The variant-1 GET /sse handler (index.js lines 243-273, identically
part_001 lines 178-220): if the Authorization header (defaulted to the
empty string) does not start with "Bearer ", answer 401 with an
Unauthorized error body and stop; otherwise emit the welcome comment,
create the session entry under a fresh id, and emit the endpoint event
pointing at /session/ and the fresh id. -/
def handleGetSse (req : HttpReq) (g : RouteState) (freshSid : List Char) :
    SseConnOutcome × RouteState × List ClientEvent :=
  let authHeader := (req.authorization).getD []
  if !(bearerTag.isPrefixOf authHeader) then
    (.unauthorized401 "Unauthorized".toList, g, [])
  else
    let g2 := { g with
      sessions := mapSet g.sessions freshSid { isSse := true, hasRes := true } }
    (.streamOpened freshSid, g2,
     [ClientEvent.comment " welcome".toList,
      ClientEvent.sseEvent "endpoint".toList ("/session/".toList ++ freshSid)])

/-- A sample of JSON.parse used for the concrete runs below: it agrees
with JSON.parse on every input it is applied to in this file (the two
well-formed objects carrying an id, and the ill-formed fragments, on
which JSON.parse throws and the model returns none). -/
def testParse (s : List Char) : Option Msg :=
  if s = "\x7b\"id\":1\x7d".toList then some { id := some 1, raw := s }
  else if s = "\x7b\"id\":7\x7d".toList then some { id := some 7, raw := s }
  else none

/-- Identity URL resolution, standing for the platform URL constructor in
concrete runs where the resolved value is irrelevant. -/
def idUrl (s : List Char) : List Char := s

/-- Concrete variant-1 state for the C1 runs: session S is live and the
reply with id 1 is pending for it. -/
def c1State : RouteState :=
  { pending := [(some 1, "S".toList)],
    sessions := [("S".toList, { isSse := true, hasRes := true })],
    n8nSession := none, n8nAttempt := none, log := [] }

/-- One complete upstream data line, delivered in a single chunk. -/
def c1Whole : List (List Char) := ["data: \x7b\"id\":1\x7d\n".toList]

/-- The same bytes, split in the middle of the JSON payload. -/
def c1Split : List (List Char) :=
  ["data: \x7b\"id".toList, "\":1\x7d\n".toList]

/-- Concrete robust-listener start state for the C1 witness: empty block
accumulator and buffer, waiter registered for id 1. -/
def c1wSt : RobustInner × List Char :=
  ({ eventData := [], waiters := [(some 1, 0)], log := [] }, [])

/-- A data block followed by its terminating blank line, in two chunks. -/
def c1wCs : List (List Char) :=
  ["data: \x7b\"id\":1\x7d".toList, "\n\n".toList]

/-- The same bytes with the split inside the JSON payload. -/
def c1wDs : List (List Char) :=
  ["data: \x7b\"id".toList, "\":1\x7d\n\n".toList]

/-- Concrete sync-bridge state for the C2 runs: a live connection and one
pending waiter for id 7. -/
def c2State : SyncBridgeState :=
  { session := some "U".toList, connectionInFlight := false,
    waiters := [(some 7, 0)], log := [] }

/-- Concrete promise-singleton state for the C3 witness: no cached
session, attempt 5 in flight. -/
def c3wP : PGState := { session := none, attempt := some 5 }

/-- Concrete flag-variant state for the C3 witness: no cached session,
n8nConnecting set. -/
def c3wF : FGState := { session := none, connecting := true }

/-- Concrete variant-1 state for the C4 runs: id 1 is already pending for
session A, and sessions A and B are both live. -/
def c4State : RouteState :=
  { pending := [(some 1, "A".toList)],
    sessions := [("A".toList, { isSse := true, hasRes := true }),
                 ("B".toList, { isSse := true, hasRes := true })],
    n8nSession := none, n8nAttempt := none, log := [] }

/-- Concrete N8nSession state for the C6 counterexample: endpoint known,
no waiter registered (the waiter for id 7 has already timed out and been
removed), and a client res stream attached. -/
def c6State : NSState :=
  { n8nSessionUrl := some "U".toList, expectingEndpointData := false,
    waiters := [], hasClientRes := true, isAlive := true }

/-- The late upstream reply line for the C6 runs. -/
def c6Line : List Char := "data: \x7b\"id\":7\x7d".toList

/-- Concrete sync-bridge state for the C6 witness: no waiter pending. -/
def c6wB : SyncBridgeState :=
  { session := some "U".toList, connectionInFlight := false,
    waiters := [], log := [] }

/-- Concrete N8nSession state for the C6 witness: no waiter pending and
no client res stream attached. -/
def c6wN : NSState :=
  { n8nSessionUrl := some "U".toList, expectingEndpointData := false,
    waiters := [], hasClientRes := false, isAlive := true }

/-- Concrete N8nSession state for the C7 runs: one pending waiter for
id 7 at the moment the session is closed. -/
def c7State : NSState :=
  { n8nSessionUrl := some "U".toList, expectingEndpointData := false,
    waiters := [(some 7, 0)], hasClientRes := true, isAlive := true }

/-- Concrete initialize request for the C8 witness. -/
def c8Req : McpRequest := { method := some "initialize".toList, id := some 3 }

/-- Concrete robust-listener inner state for the C9 witness: a corrupt
block has been accumulated. -/
def c9Inner : RobustInner := { eventData := "oops".toList, waiters := [], log := [] }

/-- Concrete request with no Authorization header for the C10 witness. -/
def c10Req : HttpReq := { authorization := none }

/-- Splitting a concatenation: the complete lines of a ++ b are the
complete lines of a followed by the complete lines of the carry of a
prepended to b, and the final carry agrees. -/
theorem linesAndRest_append (a b : List Char) :
    linesAndRest (a ++ b) =
      ((linesAndRest a).1 ++ (linesAndRest ((linesAndRest a).2 ++ b)).1,
       (linesAndRest ((linesAndRest a).2 ++ b)).2) := by
  induction a with
  | nil => simp [linesAndRest]
  | cons c cs ih =>
    by_cases hc : c = '\n'
    · subst hc
      simp [linesAndRest, ih]
    · rcases hcs : linesAndRest cs with ⟨L, r⟩
      rcases L with _ | ⟨l, ls⟩
      · rcases hL : linesAndRest (r ++ b) with ⟨L2, r2⟩
        rcases L2 with _ | ⟨m, ms⟩ <;>
          simp [linesAndRest, hc, ih, hcs, hL]
      · simp [linesAndRest, hc, ih, hcs]

/-- The carry fragment held back by the splitter never contains a
newline. -/
theorem linesAndRest_rest_no_newline (s : List Char) :
    '\n' ∉ (linesAndRest s).2 := by
  induction s with
  | nil => simp [linesAndRest]
  | cons c cs ih =>
    by_cases hc : c = '\n'
    · simp [linesAndRest, hc, ih]
    · rcases hcs : linesAndRest cs with ⟨L, r⟩
      rw [hcs] at ih
      rcases L with _ | ⟨l, ls⟩ <;>
        simp_all [linesAndRest, hc, hcs, Ne.symm hc]

/-- A fragment with no newline splits into no complete line and itself as
the carry. -/
theorem linesAndRest_of_no_newline (s : List Char) (h : '\n' ∉ s) :
    linesAndRest s = ([], s) := by
  induction s with
  | nil => simp [linesAndRest]
  | cons c cs ih =>
    have hc : ¬(c = '\n') := by
      intro e
      exact h (by simp [e])
    have hcs : '\n' ∉ cs := fun m => h (List.mem_cons_of_mem _ m)
    simp [linesAndRest, hc, ih hcs]

/-- Feeding two chunks in sequence equals feeding their concatenation:
the carry-over buffer makes the chunk boundary invisible. -/
theorem chunkFeed_append {σ : Type} (g : σ → List Char → σ)
    (st : σ × List Char) (a b : List Char) :
    chunkFeed g (chunkFeed g st a) b = chunkFeed g st (a ++ b) := by
  unfold chunkFeed
  rw [← List.append_assoc, linesAndRest_append (st.2 ++ a) b]
  simp [List.foldl_append]

/-- Folding a carry-over parser over any chunk sequence equals feeding
the whole concatenation at once, provided the initial buffer holds no
newline (as every buffer reachable by the listener does). -/
theorem foldl_chunkFeed_flatten {σ : Type} (g : σ → List Char → σ) :
    ∀ (cs : List (List Char)) (st : σ × List Char), '\n' ∉ st.2 →
      cs.foldl (chunkFeed g) st = chunkFeed g st cs.flatten := by
  intro cs
  induction cs with
  | nil =>
    intro st h
    simp [chunkFeed, linesAndRest_of_no_newline _ h]
  | cons c cs ih =>
    intro st h
    rw [List.foldl_cons, ih _ (linesAndRest_rest_no_newline _), chunkFeed_append]
    rfl

/-- mapSet makes the new binding visible under its key. -/
theorem mapSet_get_self {κ α : Type} [DecidableEq κ]
    (m : List (κ × α)) (k : κ) (v : α) : mapGet (mapSet m k v) k = some v := by
  induction m with
  | nil => simp [mapSet, mapGet]
  | cons p rest ih =>
    by_cases h : p.1 = k <;> simp [mapSet, mapGet, h, ih]

/-- mapSet leaves every other key unchanged. -/
theorem mapSet_get_ne {κ α : Type} [DecidableEq κ]
    (m : List (κ × α)) (k k' : κ) (v : α) (h : k' ≠ k) :
    mapGet (mapSet m k v) k' = mapGet m k' := by
  induction m with
  | nil => simp [mapSet, mapGet, Ne.symm h]
  | cons p rest ih =>
    by_cases hp : p.1 = k
    · simp [mapSet, mapGet, hp, Ne.symm h]
    · simp [mapSet, mapGet, hp, ih]

/-- Every key of mapSet m k v is a key of m or is k. -/
theorem mem_mapKeys_mapSet {κ α : Type} [DecidableEq κ]
    (m : List (κ × α)) (k : κ) (v : α) (x : κ)
    (h : x ∈ mapKeys (mapSet m k v)) : x ∈ mapKeys m ∨ x = k := by
  induction m with
  | nil =>
    simp [mapSet, mapKeys] at h
    exact Or.inr h
  | cons p rest ih =>
    by_cases hp : p.1 = k
    · simp [mapSet, mapKeys, hp] at h
      rcases h with h | h
      · exact Or.inr h
      · exact Or.inl (by simp [mapKeys, h])
    · simp [mapSet, mapKeys, hp] at h
      rcases h with h | h
      · exact Or.inl (by simp [mapKeys, h])
      · rcases ih (by simpa [mapKeys] using h) with h2 | h2
        · exact Or.inl (by simp [mapKeys] at h2 ⊢; exact Or.inr h2)
        · exact Or.inr h2

/-- mapSet preserves key uniqueness: there is still at most one entry per
id after a set. -/
theorem mapSet_keys_nodup {κ α : Type} [DecidableEq κ]
    (m : List (κ × α)) (k : κ) (v : α) (h : (mapKeys m).Nodup) :
    (mapKeys (mapSet m k v)).Nodup := by
  induction m with
  | nil => simp [mapSet, mapKeys]
  | cons p rest ih =>
    rw [mapKeys, List.map_cons, List.nodup_cons] at h
    by_cases hp : p.1 = k
    · subst hp
      simpa [mapSet, mapKeys, List.nodup_cons] using h
    · rw [mapSet, if_neg hp, mapKeys, List.map_cons, List.nodup_cons]
      refine ⟨fun hm => ?_, ih h.2⟩
      rcases mem_mapKeys_mapSet rest k v p.1 hm with h2 | h2
      · exact h.1 h2
      · exact hp h2

/-- mapDelete leaves every other key unchanged. -/
theorem mapDelete_get_ne {κ α : Type} [DecidableEq κ]
    (m : List (κ × α)) (k k' : κ) (h : k' ≠ k) :
    mapGet (mapDelete m k) k' = mapGet m k' := by
  induction m with
  | nil => simp [mapDelete]
  | cons p rest ih =>
    by_cases hp : p.1 = k
    · simp [mapDelete, mapGet, hp, Ne.symm h]
    · simp [mapDelete, mapGet, hp, ih]

/-- Claim C1 (corrected), counterexample: the simple background listener
of the first index.js variant (lines 106-140) splits each chunk on its
own, with no carry-over buffer, so the same upstream bytes produce
different routing depending on the chunk boundaries. The stream
consisting of one complete data line carrying id 1 is routed to session
S when it arrives in one chunk, but is dropped entirely when the line is
split across two chunks, because each fragment alone fails JSON.parse.
This refutes the claim that the listener produces the same message
sequence for every way of splitting the byte stream into chunks. -/
theorem c1_counterexample :
    c1Whole.flatten = c1Split.flatten
  ∧ runSimple testParse c1State c1Whole ≠ runSimple testParse c1State c1Split := by
  constructor
  · rfl
  · decide

/-- Claim C1 (corrected), amended: the robust background listener of
part_002 (lines 393-450), which maintains the carry-over buffer the spec
describes, emits the same ordered sequence of resolutions, and reaches
the same state, for every way of splitting the upstream byte stream into
chunks, provided the buffer it starts from holds no newline (true of
every buffer the listener ever holds). The simple listener of the first
index.js variant does not have this property, see the counterexample. -/
theorem c1_amended (parse : List Char → Option Msg)
    (st : RobustInner × List Char) (cs ds : List (List Char))
    (hb : '\n' ∉ st.2) (h : cs.flatten = ds.flatten) :
    runRobust parse st cs = runRobust parse st ds := by
  unfold runRobust
  rw [foldl_chunkFeed_flatten _ _ _ hb, foldl_chunkFeed_flatten _ _ _ hb, h]

/-- Witness for c1_amended: a concrete run where a data block is split in
the middle of its JSON payload, with the hypotheses discharged at the
concrete values. -/
theorem c1_amended_witness :
    ('\n' ∉ c1wSt.2 ∧ c1wCs.flatten = c1wDs.flatten)
  ∧ runRobust testParse c1wSt c1wCs = runRobust testParse c1wSt c1wDs :=
  ⟨⟨by decide, by decide⟩,
   c1_amended testParse c1wSt c1wCs c1wDs (by decide) (by decide)⟩

/-- Claim C2 (corrected), counterexample: the upstream stream terminates
while the request with id 7 is pending. The termination handling of the
background listener (the finally block) emits no resolution at all and
leaves the waiter registered, so the request is settled only later, by
its own 25 second timeout rejection. This refutes the claim that every
pending request is resolved promptly with a connection-lost outcome and
that none reaches its own timeout. -/
theorem c2_counterexample :
    (onStreamEnd c2State).log = []
  ∧ (onStreamEnd c2State).waiters = [(some 7, 0)]
  ∧ (onWaiterTimeout (onStreamEnd c2State) (some 7)).log
      = [BridgeEvent.rejectedTimeout (some 7)] := by
  exact ⟨rfl, rfl, rfl⟩

/-- Claim C2 (corrected), amended: on upstream stream termination the
listener only clears the connection globals (n8nGlobalSession and
n8nConnectionPromise); no pending request is resolved with a
connection-lost outcome. Every pending waiter survives the termination
unchanged and is settled only by its own timeout, which rejects it with
a timeout error and removes it. -/
theorem c2_amended (st : SyncBridgeState) (id : Option Nat)
    (h : mapHas st.waiters id = true) :
    (onStreamEnd st).session = none
  ∧ (onStreamEnd st).connectionInFlight = false
  ∧ (onStreamEnd st).waiters = st.waiters
  ∧ (onStreamEnd st).log = st.log
  ∧ onWaiterTimeout (onStreamEnd st) id
      = { session := none, connectionInFlight := false,
          waiters := mapDelete st.waiters id,
          log := st.log ++ [BridgeEvent.rejectedTimeout id] } := by
  refine ⟨rfl, rfl, rfl, rfl, ?_⟩
  simp [onWaiterTimeout, onStreamEnd, h]

/-- Witness for c2_amended at the concrete state with waiter 7 pending. -/
theorem c2_amended_witness :
    mapHas c2State.waiters (some 7) = true
  ∧ onWaiterTimeout (onStreamEnd c2State) (some 7)
      = { session := none, connectionInFlight := false,
          waiters := mapDelete c2State.waiters (some 7),
          log := c2State.log ++ [BridgeEvent.rejectedTimeout (some 7)] } :=
  ⟨by decide, (c2_amended c2State (some 7) (by decide)).2.2.2.2⟩

/-- Claim C3 (corrected), counterexample: in the flag-and-sleep variant
of ensureN8nGlobalConnection, a caller that arrives while a connect is in
flight sleeps 500 ms and then returns whatever n8nGlobalSession holds;
when the attempt has not completed by then, that value is null. The
caller therefore receives a null connection instead of the result of the
single in-flight attempt, refuting the claim as stated over this cited
variant. -/
theorem c3_counterexample :
    ensureFlag { session := none, connecting := true } none
      = FlagOutcome.sleptThenReturned none := rfl

/-- Claim C3 (corrected), amended: in the promise-singleton variant, a
caller arriving while a connect is in flight joins exactly that attempt
and changes nothing, so concurrent callers all await the same single
attempt and no duplicate connect is started. In the flag-and-sleep
variant a caller arriving during an in-flight connect also never starts
a second connect, but it merely sleeps and returns the value of
n8nGlobalSession observed at wake time, which may still be null. -/
theorem c3_amended (st : PGState) (fresh a : Nat) (fst : FGState)
    (wake : Option (List Char))
    (h1 : st.session = none) (h2 : st.attempt = some a)
    (h3 : fst.session = none) (h4 : fst.connecting = true) :
    ensurePromise st fresh = (EnsureOutcome.joined a, st)
  ∧ ensureFlag fst wake = FlagOutcome.sleptThenReturned wake := by
  constructor
  · simp [ensurePromise, h1, h2]
  · simp [ensureFlag, h3, h4]

/-- Witness for c3_amended at the concrete in-flight states. -/
theorem c3_amended_witness :
    ensurePromise c3wP 9 = (EnsureOutcome.joined 5, c3wP)
  ∧ ensureFlag c3wF none = FlagOutcome.sleptThenReturned none :=
  ⟨(c3_amended c3wP 9 5 c3wF none rfl rfl rfl rfl).1,
   (c3_amended c3wP 9 5 c3wF none rfl rfl rfl rfl).2⟩

/-- Claim C4 (corrected), counterexample: with id 1 already pending for
session A, posting a request with the same id 1 through session B is not
rejected: the handler answers 202 and the pending map now binds id 1 to
B, the first waiter having been silently replaced. -/
theorem c4_counterexample :
    handleSessionPost c4State "B".toList (some 1) (some (some "u".toList)) true
      = (202, { c4State with pending := [(some 1, "B".toList)] }) := by
  decide

/-- Claim C4 (corrected), amended: the map does keep at most one pending
entry per id (key uniqueness is preserved by every registration), but
registering a second waiter for an id that is already pending is not
rejected: the handler accepts the post (202 on the success path) and
Map.set silently overwrites the previous binding of that id, every other
id being left unchanged. -/
theorem c4_amended (g : RouteState) (sid : List Char) (e : SessEntry)
    (rid : Option Nat) (u : List Char) (ok : Bool)
    (hs : mapGet g.sessions sid = some e)
    (hnodup : (mapKeys g.pending).Nodup) :
    handleSessionPost g sid rid (some (some u)) ok
      = ((if ok then 202 else 500),
         { g with pending := mapSet g.pending rid sid })
  ∧ (mapKeys (mapSet g.pending rid sid)).Nodup
  ∧ mapGet (mapSet g.pending rid sid) rid = some sid
  ∧ ∀ k, k ≠ rid → mapGet (mapSet g.pending rid sid) k = mapGet g.pending k := by
  refine ⟨?_, mapSet_keys_nodup _ _ _ hnodup, mapSet_get_self _ _ _,
          fun k hk => mapSet_get_ne _ _ _ _ hk⟩
  cases ok <;> simp [handleSessionPost, hs]

/-- Witness for c4_amended at the concrete duplicate registration. -/
theorem c4_amended_witness :
    handleSessionPost c4State "B".toList (some 1) (some (some "u".toList)) true
      = (202, { c4State with pending := mapSet c4State.pending (some 1) "B".toList })
  ∧ (mapKeys (mapSet c4State.pending (some 1) "B".toList)).Nodup
  ∧ mapGet (mapSet c4State.pending (some 1) "B".toList) (some 1) = some "B".toList
  ∧ mapGet (mapSet c4State.pending (some 1) "B".toList) (some 2)
      = mapGet c4State.pending (some 2) :=
  ⟨(c4_amended c4State "B".toList { isSse := true, hasRes := true } (some 1)
      "u".toList true (by decide) (by decide)).1,
   (c4_amended c4State "B".toList { isSse := true, hasRes := true } (some 1)
      "u".toList true (by decide) (by decide)).2.1,
   (c4_amended c4State "B".toList { isSse := true, hasRes := true } (some 1)
      "u".toList true (by decide) (by decide)).2.2.1,
   (c4_amended c4State "B".toList { isSse := true, hasRes := true } (some 1)
      "u".toList true (by decide) (by decide)).2.2.2 (some 2) (by decide)⟩

/-- The polling loop only answers with a value it actually observed,
within its fuel. -/
theorem firstUrl_some (urlAt : Nat → Option (List Char)) :
    ∀ (f k : Nat) (u : List Char), firstUrl urlAt k f = some u →
      ∃ j, k ≤ j ∧ j < k + f ∧ urlAt j = some u := by
  intro f
  induction f with
  | zero =>
    intro k u h
    simp [firstUrl] at h
  | succ f ih =>
    intro k u h
    cases hk : urlAt k with
    | some v =>
      rw [firstUrl, hk] at h
      refine ⟨k, le_refl k, by omega, ?_⟩
      rw [hk]
      exact h
    | none =>
      rw [firstUrl, hk] at h
      obtain ⟨j, h1, h2, h3⟩ := ih (k + 1) u h
      exact ⟨j, by omega, by omega, h3⟩

/-- When every observation within the fuel is null, the polling loop
gives up with none. -/
theorem firstUrl_none (urlAt : Nat → Option (List Char)) :
    ∀ (f k : Nat), (∀ j, k ≤ j → j < k + f → urlAt j = none) →
      firstUrl urlAt k f = none := by
  intro f
  induction f with
  | zero => intro k _; rfl
  | succ f ih =>
    intro k h
    have hk : urlAt k = none := h k (le_refl k) (by omega)
    rw [firstUrl, hk]
    exact ih (k + 1) (fun j h1 h2 => h j (by omega) (by omega))

/-- Claim C5 (corrected), counterexample: QuickMcpClient.sendInternal
called before the posting endpoint is known does not block, wait nor fail
with a not-ready error: it silently returns without sending, which is not
the not-ready failure the claim requires. -/
theorem c5_counterexample :
    sendInternal none = SendOutcome.skipped
  ∧ SendOutcome.skipped ≠ SendOutcome.notReadyErr :=
  ⟨rfl, by decide⟩

/-- Claim C5 (corrected), amended: N8nSession.sendToN8n behaves as the
claim says: it polls the endpoint every 100 ms for at most 50 attempts
(about five seconds), posts only to an endpoint value it actually
observed (never to an unresolved placeholder), and throws the not-ready
error when the endpoint never appears within the bound.
QuickMcpClient.sendInternal also never posts to an unresolved endpoint,
but instead of waiting and failing it silently skips the send when the
endpoint is unknown. -/
theorem c5_amended (urlAt : Nat → Option (List Char)) :
    (∀ u, sendToN8n urlAt = SendOutcome.sent u → ∃ k, k ≤ 50 ∧ urlAt k = some u)
  ∧ ((∀ k, k ≤ 50 → urlAt k = none) → sendToN8n urlAt = SendOutcome.notReadyErr)
  ∧ sendInternal none = SendOutcome.skipped
  ∧ (∀ u, sendInternal (some u) = SendOutcome.sent u) := by
  refine ⟨?_, ?_, rfl, fun u => rfl⟩
  · intro u h
    unfold sendToN8n at h
    cases h0 : urlAt 0 with
    | some v =>
      rw [h0] at h
      simp at h
      exact ⟨0, by omega, by rw [h0, h]⟩
    | none =>
      rw [h0] at h
      cases hf : firstUrl urlAt 1 50 with
      | some v =>
        rw [hf] at h
        simp at h
        obtain ⟨j, h1, h2, h3⟩ := firstUrl_some urlAt 50 1 v hf
        exact ⟨j, by omega, by rw [h3, h]⟩
      | none =>
        rw [hf] at h
        simp at h
  · intro hall
    have h0 : urlAt 0 = none := hall 0 (by omega)
    have hf : firstUrl urlAt 1 50 = none :=
      firstUrl_none urlAt 50 1 (fun j h1 h2 => hall j (by omega))
    unfold sendToN8n
    rw [h0, hf]

/-- Witness for c5_amended: with an endpoint that never appears, the
send fails with the not-ready error after the bounded poll, and the
quick-client send is skipped. -/
theorem c5_amended_witness :
    sendToN8n (fun _ => none) = SendOutcome.notReadyErr
  ∧ sendInternal none = SendOutcome.skipped :=
  ⟨(c5_amended (fun _ => none)).2.1 (fun _ _ => rfl),
   (c5_amended (fun _ => none)).2.2.1⟩

/-- Claim C6 (corrected), counterexample: a reply for id 7 arrives after
its waiter has timed out and been removed from the map. In
N8nSession.processLine the reply is not discarded: because the session
has a client res stream attached, the message is pushed to that session
stream as an SSE message event, refuting the part of the claim that says
the reply is delivered to no session stream. -/
theorem c6_counterexample :
    processLine testParse idUrl c6State c6Line
      = (c6State,
         [NSEvent.sseMessage { id := some 7, raw := "\x7b\"id\":7\x7d".toList }]) := by
  decide

/-- Claim C6 (corrected), amended: a reply whose id has no registered
waiter resolves nothing and never recreates or mutates the removed
pending entry. In the part_004 background listener it is discarded
entirely (the state is unchanged and nothing is emitted). In
N8nSession.processLine the state is also unchanged, but the reply is
forwarded to the session client stream as an unsolicited message when
such a stream is attached, and discarded only otherwise. -/
theorem c6_amended (parse : List Char → Option Msg) (ru : List Char → List Char)
    (bst : SyncBridgeState) (lineB : List Char) (msgB : Msg)
    (nst : NSState) (lineN : List Char) (msgN : Msg)
    (hpB : parse (jsTrim ((jsTrim lineB).drop 6)) = some msgB)
    (hmB : (jsTruthyId msgB.id && mapHas bst.waiters msgB.id) = false)
    (hnN : lineN.isEmpty = false)
    (heN : endpointTag.isPrefixOf lineN = false)
    (hdN : dataTag.isPrefixOf lineN = true)
    (hxN : nst.expectingEndpointData = false)
    (hneN : (jsTrim (lineN.drop 6)).isEmpty = false)
    (hndN : (jsTrim (lineN.drop 6) == doneTag) = false)
    (hpN : parse (jsTrim (lineN.drop 6)) = some msgN)
    (hmN : (jsTruthyId msgN.id && mapHas nst.waiters msgN.id) = false) :
    bridgeLineStep parse bst lineB = bst
  ∧ processLine parse ru nst lineN
      = (nst, if nst.hasClientRes then [NSEvent.sseMessage msgN] else []) := by
  constructor
  · cases hd : dataTag.isPrefixOf (jsTrim lineB)
    · simp [bridgeLineStep, hd]
    · cases hg : ((jsTrim ((jsTrim lineB).drop 6)).isEmpty
          || jsTrim ((jsTrim lineB).drop 6) == doneTag)
      · simp [bridgeLineStep, hd, hg, hpB, hmB]
      · simp [bridgeLineStep, hd, hg]
  · cases hcr : nst.hasClientRes <;>
      simp [processLine, hnN, heN, hdN, hxN, hneN, hndN, hpN, hmN, hcr]

/-- Witness for c6_amended at a concrete late reply: with no waiter for
id 7 and no client stream attached, both listeners leave the state
unchanged and deliver nothing. -/
theorem c6_amended_witness :
    bridgeLineStep testParse c6wB c6Line = c6wB
  ∧ processLine testParse idUrl c6wN c6Line = (c6wN, []) :=
  c6_amended testParse idUrl c6wB c6Line
    { id := some 7, raw := "\x7b\"id\":7\x7d".toList }
    c6wN c6Line { id := some 7, raw := "\x7b\"id\":7\x7d".toList }
    (by decide) (by decide) (by decide) (by decide) (by decide) (by decide)
    (by decide) (by decide) (by decide) (by decide)

/-- Claim C7 (corrected), counterexample: closing an N8nSession that
still has the pending request with id 7 resolves nothing: close clears
the waiter map and emits no event, and afterwards even the 30 second
timeout callback of that request finds no entry and emits nothing, so
the request is never resolved with a session-closed outcome (nor with
anything else). -/
theorem c7_counterexample :
    closeNs c7State = ({ c7State with isAlive := false, waiters := [] }, [])
  ∧ (nsOnTimeout (closeNs c7State).1 (some 7)).2 = [] :=
  ⟨rfl, rfl⟩

/-- Claim C7 (corrected), amended: tearing down a client session does not
resolve its pending requests with a session-closed outcome.
N8nSession.close clears its waiter map without settling any waiter (the
returned event list is empty, and the cleared entries leave the waiter
promises permanently unsettled). The variant-1 SSE close handler only
deletes the session entry: pendingRequests, the n8n connection globals,
the delivery log and every other session entry are untouched, so other
sessions and the shared upstream connection are indeed unaffected. -/
theorem c7_amended (st : NSState) (g : RouteState) (sid sid2 : List Char)
    (h : sid2 ≠ sid) :
    closeNs st = ({ st with isAlive := false, waiters := [] }, [])
  ∧ (onClientClose g sid).pending = g.pending
  ∧ (onClientClose g sid).n8nSession = g.n8nSession
  ∧ (onClientClose g sid).n8nAttempt = g.n8nAttempt
  ∧ (onClientClose g sid).log = g.log
  ∧ mapGet (onClientClose g sid).sessions sid2 = mapGet g.sessions sid2 :=
  ⟨rfl, rfl, rfl, rfl, rfl, mapDelete_get_ne _ _ _ h⟩

/-- Witness for c7_amended: closing session S leaves the entry of the
unrelated session X and the pending map untouched. -/
theorem c7_amended_witness :
    closeNs c7State = ({ c7State with isAlive := false, waiters := [] }, [])
  ∧ (onClientClose c1State "S".toList).pending = c1State.pending
  ∧ mapGet (onClientClose c1State "S".toList).sessions "X".toList
      = mapGet c1State.sessions "X".toList :=
  ⟨(c7_amended c7State c1State "S".toList "X".toList (by decide)).1,
   (c7_amended c7State c1State "S".toList "X".toList (by decide)).2.1,
   (c7_amended c7State c1State "S".toList "X".toList (by decide)).2.2.2.2.2⟩

/-- Claim C8 (confirmed): a posted request whose method is initialize is
answered immediately by both cited handlers with the static reply
carrying protocol version 2024-11-05, server Stock Analysis MCP 1.0.0,
the tools capability, and the id of the posted request; the committed
plan makes no upstream call and registers no waiter. -/
theorem c8_handshake (hasSession ensureOk : Bool) (req : McpRequest)
    (h : req.method = some "initialize".toList) :
    handleMcpPost hasSession req = initializeReply req.id
  ∧ handlePostSseV1 ensureOk req = initializeReply req.id
  ∧ planCallsUpstream (handleMcpPost hasSession req) = false
  ∧ planRegistersWaiter (handleMcpPost hasSession req) = false
  ∧ planCallsUpstream (handlePostSseV1 ensureOk req) = false
  ∧ planRegistersWaiter (handlePostSseV1 ensureOk req) = false := by
  have h1 : handleMcpPost hasSession req = initializeReply req.id := by
    simp [handleMcpPost, h]
  have h2 : handlePostSseV1 ensureOk req = initializeReply req.id := by
    simp [handlePostSseV1, h]
  exact ⟨h1, h2, by rw [h1]; rfl, by rw [h1]; rfl, by rw [h2]; rfl, by rw [h2]; rfl⟩

/-- Witness for c8_handshake at a concrete initialize request with
id 3. -/
theorem c8_handshake_witness :
    handleMcpPost false c8Req = initializeReply (some 3)
  ∧ handlePostSseV1 true c8Req = initializeReply (some 3)
  ∧ planCallsUpstream (handleMcpPost false c8Req) = false
  ∧ planRegistersWaiter (handleMcpPost false c8Req) = false :=
  ⟨(c8_handshake false true c8Req rfl).1,
   (c8_handshake false true c8Req rfl).2.1,
   (c8_handshake false true c8Req rfl).2.2.1,
   (c8_handshake false true c8Req rfl).2.2.2.1⟩

/-- Claim C9 (confirmed): a data line whose payload fails JSON.parse is
dropped by the simple background listener with no state change and no
emission (the try/catch makes the failure silent), and processing of the
remaining lines continues exactly as if the corrupt line were absent.
In the robust listener, the blank line terminating a corrupt accumulated
block resets the accumulator and leaves the waiters and the emission log
unchanged, so a single corrupt block never stalls the stream. -/
theorem c9_malformed_recovery (parse : List Char → Option Msg)
    (st : RouteState) (line : List Char) (rest : List (List Char))
    (ist : RobustInner)
    (hp : parse (jsTrim ((jsTrim line).drop 6)) = none)
    (hpe : parse ist.eventData = none)
    (hne : ist.eventData.isEmpty = false)
    (hnd : (ist.eventData == doneTag) = false) :
    simpleLineStep parse st line = st
  ∧ (line :: rest).foldl (simpleLineStep parse) st
      = rest.foldl (simpleLineStep parse) st
  ∧ robustLineStep parse ist [] = { ist with eventData := [] } := by
  have h1 : simpleLineStep parse st line = st := by
    cases hd : dataTag.isPrefixOf (jsTrim line)
    · simp [simpleLineStep, hd]
    · cases hg : ((jsTrim ((jsTrim line).drop 6)).isEmpty
          || jsTrim ((jsTrim line).drop 6) == doneTag)
      · simp [simpleLineStep, hd, hg, hp]
      · simp [simpleLineStep, hd, hg]
  refine ⟨h1, ?_, ?_⟩
  · rw [List.foldl_cons, h1]
  · simp [robustLineStep, hne, hnd, hpe,
      (by decide : dataTag.isPrefixOf (jsTrim ([] : List Char)) = false),
      (by decide : (jsTrim ([] : List Char)).isEmpty = true)]

/-- Witness for c9_malformed_recovery at a concrete corrupt payload. -/
theorem c9_malformed_recovery_witness :
    simpleLineStep testParse c1State "data: oops".toList = c1State
  ∧ robustLineStep testParse c9Inner [] = { c9Inner with eventData := [] } :=
  ⟨(c9_malformed_recovery testParse c1State "data: oops".toList [] c9Inner
      (by decide) (by decide) (by decide) (by decide)).1,
   (c9_malformed_recovery testParse c1State "data: oops".toList [] c9Inner
      (by decide) (by decide) (by decide) (by decide)).2.2⟩

/-- Claim C10 (confirmed): a GET request opening the client-facing event
stream whose Authorization header does not start with "Bearer " is
answered 401 with the Unauthorized error body, the sessions map is
returned unchanged, no session id is issued, and nothing (in particular
no endpoint event) is written to the stream. -/
theorem c10_unauthorized (req : HttpReq) (g : RouteState) (freshSid : List Char)
    (h : bearerTag.isPrefixOf ((req.authorization).getD []) = false) :
    handleGetSse req g freshSid
      = (SseConnOutcome.unauthorized401 "Unauthorized".toList, g, []) := by
  simp [handleGetSse, h]

/-- Witness for c10_unauthorized at a concrete request with no
Authorization header. -/
theorem c10_unauthorized_witness :
    handleGetSse c10Req c1State "N".toList
      = (SseConnOutcome.unauthorized401 "Unauthorized".toList, c1State, []) :=
  c10_unauthorized c10Req c1State "N".toList (by decide)

end McpProxy
